import Mathlib

/-!
# Verification of the DeepWoods.in chat backends

Shallow embedding of the request handlers of the DeepWoods.in repository:

* `indexV1Handler`   — `app.post('/api/chat')`, first variant in `src/index.js`
  (lines 41–160): scoped retrieval with web-search fallback and in-memory
  conversation history.
* `indexV2Handler`   — second variant in `src/index.js` (lines 210–357): same
  shape, with an inner catch around the vector search and different fallback
  prompt plumbing.
* `part001V1Handler` — first variant in `src/unnamed/part_001` (lines 28–81):
  fetches and indexes the PDF per request, requires `pdfUrl`.
* `part001V2Handler` — second variant in `src/unnamed/part_001`
  (lines 121–192): always queries the vector store across all documents,
  ignores `pdfUrl`.
* `apiChatHandler`   — serverless handler in `src/api/chat.js`.
* `part002Handler`   — serverless handler in `src/unnamed/part_002`.
* `cleanText`        — the null-character cleanup of the ingestion script
  `src/unnamed/part_000` (line 50).

External collaborators (vector store retriever, Google custom search, the
language model, PDF fetch/parse) are black boxes per the design document;
they are modelled as function fields of collaborator structures, returning
`Except String _` where the string is the JavaScript error's `message`.
Each handler returns its HTTP response, the updated conversation history
(where it keeps one), and the trace of collaborator invocations it made.
-/

namespace DeepWoods

/-- One Google custom-search result item (`searchResponse.data.items[i]`). -/
structure SearchItem where
  title : String
  link : String
  snippet : String
deriving DecidableEq, Repr

/-- One conversation exchange stored by `BufferMemory.saveContext`. -/
structure Turn where
  question : String
  answer : String
deriving DecidableEq, Repr

/-- Body of an HTTP JSON response: `{ answer: ... }` or `{ error: ... }`. -/
inductive RespBody where
  | answer (a : String)
  | error (e : String)
deriving DecidableEq, Repr

/-- An HTTP response: status code plus JSON body. -/
structure Resp where
  status : Nat
  body : RespBody
deriving DecidableEq, Repr

/-- A collaborator invocation made by a handler. -/
inductive CallEvent where
  | retrieverCall (q : String)
  | webSearchCall (q : String)
  | llmCall
  | pdfFetchCall (url : String)
deriving DecidableEq, Repr

/-- Body of a chat request: both fields come from JSON, so each may be
absent; an absent field destructures to `undefined` in the source. -/
structure ChatRequest where
  question : Option String
  pdfUrl : Option String
deriving DecidableEq, Repr

/-- JavaScript truthiness of a possibly-absent string field:
`undefined` and the empty string are falsy. -/
def truthy : Option String → Bool
  | none => false
  | some s => s != ""

/-- The scope test of `src/index.js`: `pdfUrl && pdfUrl !== 'general_discussion'`. -/
def hasScope : Option String → Bool
  | none => false
  | some s => s != "" && s != "general_discussion"

/-- `error.message || dflt`: JavaScript `||` falls through on the empty string. -/
def jsOr (s dflt : String) : String :=
  if s = "" then dflt else s

/-- One iteration of the `searchResults.forEach` loop that builds the search
context string. -/
def itemLine (it : SearchItem) : String :=
  "Title: " ++ it.title ++ "\nLink: " ++ it.link ++ "\nSnippet: " ++ it.snippet ++ "\n\n"

/-- `searchContext`: the `forEach` accumulation over the search items. -/
def buildSearchContext (items : List SearchItem) : String :=
  items.foldl (fun acc it => acc ++ itemLine it) ""

/-- External collaborators of the express handlers: the vector-store
retriever, the Google custom-search call (`data.items` may be absent, hence
the inner `Option`), the retrieval chain built over the same retriever and
model (a function of the input question and the loaded chat history), the
chat model invoked on a message list, and the model invoked on a plain
formatted prompt string. An `Except.error` is a thrown exception carrying
`error.message`. -/
structure Collab where
  getRelevantDocuments : String → Except String (List String)
  searchData : String → Except String (Option (List SearchItem))
  chainInvoke : String → List Turn → Except String String
  chatInvoke : List (String × String) → Except String String
  modelInvoke : String → Except String String

/-- The warning prefixed to fallback answers in the first `src/index.js`
variant (line 121). -/
def indexV1Warning : String :=
  "⚠️ Note: No relevant docs found, so I searched the web."

/-- The warning prefixed to fallback answers in the second `src/index.js`
variant (line 305 of the concatenated file). -/
def indexV2Warning : String :=
  "⚠️ Note: I couldn't find an answer in your documents, so the response below was generated based on an internet search."

/-- The fixed message when both the documents and the web search fail to
yield anything. -/
def noAnswerDocsMsg : String :=
  "I could not find a relevant answer in your documents or on the internet."

/-- The fixed message of the general-discussion branch when the web search
yields nothing. -/
def noAnswerWebMsg : String :=
  "I could not find a relevant answer on the internet."

/-- The system/human message list of the first variant's search prompt
(`ChatPromptTemplate.fromMessages`, lines 109–113 and 139–143) after
formatting with the actual context and question. -/
def searchMessages (ctx q : String) : List (String × String) :=
  [("system", "You are an AI assistant that answers using search results."),
   ("system", ctx),
   ("human", q)]

/-- The single formatted search prompt string of the second `src/index.js`
variant and of `part_001` variant 2 (identical template text). -/
def searchAnswerTemplate (ctx q : String) : String :=
  "You are an AI assistant that answers questions based on the following internet search results. Answer as accurately and concisely as possible. Search Results: " ++ ctx ++ "\n\nQuestion: " ++ q

/-- `app.post('/api/chat')`, first variant of `src/index.js` (lines 41–160).
Returns the HTTP response, the conversation history after the request, and
the trace of collaborator invocations. The outer `catch` turns every thrown
collaborator error into `500 {error: "An error occurred."}`. -/
def indexV1Handler (c : Collab) (hist : List Turn) (req : ChatRequest) :
    Resp × List Turn × List CallEvent :=
  if truthy req.question then
    let q := req.question.getD ""
    if hasScope req.pdfUrl then
      match c.getRelevantDocuments q with
      | .error _ => (⟨500, .error "An error occurred."⟩, hist, [.retrieverCall q])
      | .ok docs =>
        if 0 < docs.length then
          match c.chainInvoke q hist with
          | .error _ =>
              (⟨500, .error "An error occurred."⟩, hist, [.retrieverCall q, .llmCall])
          | .ok ans =>
              (⟨200, .answer ans⟩, hist ++ [⟨q, ans⟩], [.retrieverCall q, .llmCall])
        else
          match c.searchData q with
          | .error _ =>
              (⟨500, .error "An error occurred."⟩, hist,
                [.retrieverCall q, .webSearchCall q])
          | .ok data =>
            let items := data.getD []
            let ctx := buildSearchContext items
            if ctx = "" then
              (⟨200, .answer noAnswerDocsMsg⟩, hist, [.retrieverCall q, .webSearchCall q])
            else
              match c.chatInvoke (searchMessages ctx q) with
              | .error _ =>
                  (⟨500, .error "An error occurred."⟩, hist,
                    [.retrieverCall q, .webSearchCall q, .llmCall])
              | .ok content =>
                  (⟨200, .answer (indexV1Warning ++ "\n\n" ++ content)⟩, hist,
                    [.retrieverCall q, .webSearchCall q, .llmCall])
    else
      match c.searchData q with
      | .error _ => (⟨500, .error "An error occurred."⟩, hist, [.webSearchCall q])
      | .ok data =>
        let items := data.getD []
        let ctx := buildSearchContext items
        if ctx = "" then
          (⟨200, .answer noAnswerWebMsg⟩, hist, [.webSearchCall q])
        else
          match c.chatInvoke (searchMessages ctx q) with
          | .error _ =>
              (⟨500, .error "An error occurred."⟩, hist, [.webSearchCall q, .llmCall])
          | .ok content =>
              (⟨200, .answer content⟩, hist, [.webSearchCall q, .llmCall])
  else
    (⟨400, .error "Missing question"⟩, hist, [])

/-- `app.post('/api/chat')`, second variant of `src/index.js`
(lines 210–357 of the concatenated file). Differences from the first
variant: an inner try/catch around the vector search answers
`500 {error: "Vector search error"}`, and the fallback/general search
prompts are single formatted strings passed to `model.invoke`. (The
general-discussion branch of the source declares `const result` twice,
which a JavaScript engine rejects at parse time; the embedding keeps the
evidently intended single invocation.) -/
def indexV2Handler (c : Collab) (hist : List Turn) (req : ChatRequest) :
    Resp × List Turn × List CallEvent :=
  if truthy req.question then
    let q := req.question.getD ""
    if hasScope req.pdfUrl then
      match c.getRelevantDocuments q with
      | .error _ => (⟨500, .error "Vector search error"⟩, hist, [.retrieverCall q])
      | .ok docs =>
        if 0 < docs.length then
          match c.chainInvoke q hist with
          | .error _ =>
              (⟨500, .error "An error occurred."⟩, hist, [.retrieverCall q, .llmCall])
          | .ok ans =>
              (⟨200, .answer ans⟩, hist ++ [⟨q, ans⟩], [.retrieverCall q, .llmCall])
        else
          match c.searchData q with
          | .error _ =>
              (⟨500, .error "An error occurred."⟩, hist,
                [.retrieverCall q, .webSearchCall q])
          | .ok data =>
            let items := data.getD []
            let ctx := buildSearchContext items
            if ctx = "" then
              (⟨200, .answer noAnswerDocsMsg⟩, hist, [.retrieverCall q, .webSearchCall q])
            else
              match c.modelInvoke (searchAnswerTemplate ctx q) with
              | .error _ =>
                  (⟨500, .error "An error occurred."⟩, hist,
                    [.retrieverCall q, .webSearchCall q, .llmCall])
              | .ok content =>
                  (⟨200, .answer (indexV2Warning ++ "\n\n" ++ content)⟩, hist,
                    [.retrieverCall q, .webSearchCall q, .llmCall])
    else
      match c.searchData q with
      | .error _ => (⟨500, .error "An error occurred."⟩, hist, [.webSearchCall q])
      | .ok data =>
        let items := data.getD []
        let ctx := buildSearchContext items
        if ctx = "" then
          (⟨200, .answer noAnswerWebMsg⟩, hist, [.webSearchCall q])
        else
          match c.modelInvoke (searchAnswerTemplate ctx q) with
          | .error _ =>
              (⟨500, .error "An error occurred."⟩, hist, [.webSearchCall q, .llmCall])
          | .ok content =>
              (⟨200, .answer content⟩, hist, [.webSearchCall q, .llmCall])
  else
    (⟨400, .error "Missing question"⟩, hist, [])

/-- `app.post('/api/chat')`, second variant of `src/unnamed/part_001`
(lines 121–192). It destructures only `question` from the body (any
`pdfUrl` is ignored) and always queries the vector store across all
documents. Its outer `catch` answers
`500 {error: error.message || "An error occurred."}`, and its web-search
fallback returns the model answer with no warning prefixed. -/
def part001V2Handler (c : Collab) (hist : List Turn) (req : ChatRequest) :
    Resp × List Turn × List CallEvent :=
  if truthy req.question then
    let q := req.question.getD ""
    match c.getRelevantDocuments q with
    | .error msg =>
        (⟨500, .error (jsOr msg "An error occurred.")⟩, hist, [.retrieverCall q])
    | .ok docs =>
      if 0 < docs.length then
        match c.chainInvoke q hist with
        | .error msg =>
            (⟨500, .error (jsOr msg "An error occurred.")⟩, hist,
              [.retrieverCall q, .llmCall])
        | .ok ans =>
            (⟨200, .answer ans⟩, hist ++ [⟨q, ans⟩], [.retrieverCall q, .llmCall])
      else
        match c.searchData q with
        | .error msg =>
            (⟨500, .error (jsOr msg "An error occurred.")⟩, hist,
              [.retrieverCall q, .webSearchCall q])
        | .ok data =>
          let items := data.getD []
          let ctx := buildSearchContext items
          if ctx = "" then
            (⟨200, .answer noAnswerDocsMsg⟩, hist, [.retrieverCall q, .webSearchCall q])
          else
            match c.modelInvoke (searchAnswerTemplate ctx q) with
            | .error msg =>
                (⟨500, .error (jsOr msg "An error occurred.")⟩, hist,
                  [.retrieverCall q, .webSearchCall q, .llmCall])
            | .ok content =>
                (⟨200, .answer content⟩, hist,
                  [.retrieverCall q, .webSearchCall q, .llmCall])
  else
    (⟨400, .error "Missing question"⟩, hist, [])

/-- A request to a serverless handler: the HTTP method plus the JSON body. -/
structure ApiRequest where
  method : String
  question : Option String
  pdfUrl : Option String
deriving DecidableEq, Repr

/-- Result of `fetch(pdfUrl)`: the `ok` flag and the raw body bytes
(stood in for by a string). -/
structure FetchResp where
  ok : Bool
  body : String
deriving DecidableEq, Repr

/-- Collaborators of the serverless handlers (`src/api/chat.js`,
`src/unnamed/part_002`): the PDF fetch, the `pdf-parse` extraction of the
fetched bytes, and the `RetrievalQAChain` built per request over the
freshly indexed raw text, invoked with the question. -/
structure ServerlessCollab where
  fetchPdf : String → Except String FetchResp
  pdfParse : String → Except String String
  qaAnswer : String → String → Except String String

/-- The serverless `handler` of `src/api/chat.js`. Rejects non-POST methods
with 405 before any validation or collaborator call; requires both
`question` and `pdfUrl`; its `catch` answers
`500 {error: error.message || "An error occurred."}`. The chain result is
read as `result?.text || result?.output_text || result || "No answer
returned"`, modelled as falling back exactly when the text is empty. -/
def apiChatHandler (c : ServerlessCollab) (req : ApiRequest) :
    Resp × List CallEvent :=
  if req.method ≠ "POST" then
    (⟨405, .error "Method not allowed"⟩, [])
  else if !truthy req.question || !truthy req.pdfUrl then
    (⟨400, .error "Missing question or pdfUrl"⟩, [])
  else
    let q := req.question.getD ""
    let url := req.pdfUrl.getD ""
    match c.fetchPdf url with
    | .error msg => (⟨500, .error (jsOr msg "An error occurred.")⟩, [.pdfFetchCall url])
    | .ok fr =>
      if !fr.ok then
        (⟨500, .error "Failed to fetch PDF"⟩, [.pdfFetchCall url])
      else
        match c.pdfParse fr.body with
        | .error msg =>
            (⟨500, .error (jsOr msg "An error occurred.")⟩, [.pdfFetchCall url])
        | .ok rawText =>
          match c.qaAnswer rawText q with
          | .error msg =>
              (⟨500, .error (jsOr msg "An error occurred.")⟩,
                [.pdfFetchCall url, .llmCall])
          | .ok t =>
              (⟨200, .answer (jsOr t "No answer returned")⟩,
                [.pdfFetchCall url, .llmCall])

/-- The serverless `handler` of `src/unnamed/part_002`: identical to
`src/api/chat.js` except that its `catch` falls back to
"An internal error occurred" when the exception's message is empty. -/
def part002Handler (c : ServerlessCollab) (req : ApiRequest) :
    Resp × List CallEvent :=
  if req.method ≠ "POST" then
    (⟨405, .error "Method not allowed"⟩, [])
  else if !truthy req.question || !truthy req.pdfUrl then
    (⟨400, .error "Missing question or pdfUrl"⟩, [])
  else
    let q := req.question.getD ""
    let url := req.pdfUrl.getD ""
    match c.fetchPdf url with
    | .error msg =>
        (⟨500, .error (jsOr msg "An internal error occurred")⟩, [.pdfFetchCall url])
    | .ok fr =>
      if !fr.ok then
        (⟨500, .error "Failed to fetch PDF"⟩, [.pdfFetchCall url])
      else
        match c.pdfParse fr.body with
        | .error msg =>
            (⟨500, .error (jsOr msg "An internal error occurred")⟩, [.pdfFetchCall url])
        | .ok rawText =>
          match c.qaAnswer rawText q with
          | .error msg =>
              (⟨500, .error (jsOr msg "An internal error occurred")⟩,
                [.pdfFetchCall url, .llmCall])
          | .ok t =>
              (⟨200, .answer (jsOr t "No answer returned")⟩,
                [.pdfFetchCall url, .llmCall])

/-- Collaborators of the first `src/unnamed/part_001` variant: the combined
fetch-and-extract of the PDF text (lines 37–48, no `ok` check on the fetch)
and the per-request `RetrievalQAChain` invocation. -/
structure PdfqaCollab where
  extractText : String → Except String String
  qaAnswer : String → String → Except String String

/-- `app.post('/api/chat')`, first variant of `src/unnamed/part_001`
(lines 28–81): requires both `question` and `pdfUrl`, fetches and indexes
the PDF per request, and answers `result.text`. Its `catch` is generic:
`500 {error: "An error occurred."}`. -/
def part001V1Handler (c : PdfqaCollab) (req : ChatRequest) :
    Resp × List CallEvent :=
  if !truthy req.question || !truthy req.pdfUrl then
    (⟨400, .error "Missing question or pdfUrl"⟩, [])
  else
    let q := req.question.getD ""
    let url := req.pdfUrl.getD ""
    match c.extractText url with
    | .error _ => (⟨500, .error "An error occurred."⟩, [.pdfFetchCall url])
    | .ok rawText =>
      match c.qaAnswer rawText q with
      | .error _ => (⟨500, .error "An error occurred."⟩, [.pdfFetchCall url, .llmCall])
      | .ok t => (⟨200, .answer t⟩, [.pdfFetchCall url, .llmCall])

/-- The text matched by the regular expression literal `/\\u0000/g` of
`src/unnamed/part_000` line 50: inside the regex, `\\` matches one literal
backslash and `u0000` the five literal characters that follow, so the
pattern matches the six-character text backslash-`u0000` — not the null
character U+0000. This scanner removes every (leftmost, non-overlapping)
occurrence of that six-character text, exactly as
`String.prototype.replace` with a `g`-flagged literal pattern does. -/
def stripLit : List Char → List Char
  | '\\' :: 'u' :: '0' :: '0' :: '0' :: '0' :: rest => stripLit rest
  | c :: rest => c :: stripLit rest
  | [] => []

/-- `const cleanText = rawText.replace(/\\u0000/g, '');` of
`src/unnamed/part_000` (line 50). -/
def cleanText (rawText : String) : String :=
  String.mk (stripLit rawText.data)

/-- Whether the web search yields at least one result item for a question
(an absent `items` field counts as no results, per `data.items || []`). -/
def searchYieldsResults (c : Collab) (q : String) : Bool :=
  match c.searchData q with
  | .ok d => !(d.getD []).isEmpty
  | .error _ => false

/-- Whether the document path of the scoped `src/index.js` handlers
succeeds on a request: non-empty question, scope set, the retriever
returns at least one chunk and the retrieval chain answers. -/
def docPathSucceeds (c : Collab) (hist : List Turn) (req : ChatRequest) : Bool :=
  truthy req.question && hasScope req.pdfUrl &&
    (match c.getRelevantDocuments (req.question.getD "") with
     | .ok docs =>
         decide (0 < docs.length) &&
           (match c.chainInvoke (req.question.getD "") hist with
            | .ok _ => true
            | .error _ => false)
     | .error _ => false)

/-- Whether the document path of the all-documents `part_001` variant-2
handler succeeds on a request (no scope condition: the retriever is always
consulted). -/
def allDocsPathSucceeds (c : Collab) (hist : List Turn) (req : ChatRequest) : Bool :=
  truthy req.question &&
    (match c.getRelevantDocuments (req.question.getD "") with
     | .ok docs =>
         decide (0 < docs.length) &&
           (match c.chainInvoke (req.question.getD "") hist with
            | .ok _ => true
            | .error _ => false)
     | .error _ => false)

theorem itemLine_length_pos (it : SearchItem) : 0 < (itemLine it).length := by
  unfold itemLine
  rw [String.length_append, String.length_append, String.length_append,
    String.length_append, String.length_append, String.length_append]
  have h : ("\n\n" : String).length = 2 := rfl
  omega

theorem length_le_foldl_itemLine (items : List SearchItem) (acc : String) :
    acc.length ≤ (items.foldl (fun a it => a ++ itemLine it) acc).length := by
  induction items generalizing acc with
  | nil => exact Nat.le_refl _
  | cons it rest ih =>
      refine Nat.le_trans ?_ (ih (acc ++ itemLine it))
      rw [String.length_append]
      exact Nat.le_add_right _ _

/-- `if (searchContext)` is taken exactly when the search returned at least
one item: the accumulated context is empty iff the item list is. -/
theorem buildSearchContext_eq_empty_iff (items : List SearchItem) :
    buildSearchContext items = "" ↔ items = [] := by
  constructor
  · intro h
    cases items with
    | nil => rfl
    | cons it rest =>
        exfalso
        have h1 : ("" ++ itemLine it).length ≤
            (buildSearchContext (it :: rest)).length :=
          length_le_foldl_itemLine rest ("" ++ itemLine it)
        have h2 : 0 < ("" ++ itemLine it).length := by
          rw [String.length_append]
          have := itemLine_length_pos it
          omega
        rw [h] at h1
        have h0 : ("" : String).length = 0 := rfl
        omega
  · intro h
    subst h
    rfl

theorem truthy_some_iff (s : String) : truthy (some s) = true ↔ s ≠ "" := by
  simp [truthy]

/-- A deterministic collaborator stub: empty retrieval, one search result,
fixed answers. -/
def stubCollab : Collab where
  getRelevantDocuments := fun _ => .ok []
  searchData := fun _ => .ok (some [⟨"T", "L", "S"⟩])
  chainInvoke := fun _ _ => .ok "doc answer"
  chatInvoke := fun _ => .ok "The answer."
  modelInvoke := fun _ => .ok "The answer."

/-- A stub whose retrieval succeeds with two chunks. -/
def docsStubCollab : Collab where
  getRelevantDocuments := fun _ => .ok ["chunk one", "chunk two"]
  searchData := fun _ => .ok (some [⟨"T", "L", "S"⟩])
  chainInvoke := fun _ _ => .ok "doc answer"
  chatInvoke := fun _ => .ok "The answer."
  modelInvoke := fun _ => .ok "The answer."

/-- A stub where both the retrieval and the web search come back empty
(the search response carries `items: []`). -/
def emptyStubCollab : Collab where
  getRelevantDocuments := fun _ => .ok []
  searchData := fun _ => .ok (some [])
  chainInvoke := fun _ _ => .ok "doc answer"
  chatInvoke := fun _ => .ok "The answer."
  modelInvoke := fun _ => .ok "The answer."

/-- A stub where the search response body lacks the `items` field. -/
def noItemsStubCollab : Collab where
  getRelevantDocuments := fun _ => .ok []
  searchData := fun _ => .ok none
  chainInvoke := fun _ _ => .ok "doc answer"
  chatInvoke := fun _ => .ok "The answer."
  modelInvoke := fun _ => .ok "The answer."

/-- A stub whose vector search throws an exception with message "boom". -/
def throwingStubCollab : Collab where
  getRelevantDocuments := fun _ => .error "boom"
  searchData := fun _ => .ok (some [⟨"T", "L", "S"⟩])
  chainInvoke := fun _ _ => .ok "doc answer"
  chatInvoke := fun _ => .ok "The answer."
  modelInvoke := fun _ => .ok "The answer."

/-- A deterministic serverless-collaborator stub that succeeds end to end. -/
def stubServerless : ServerlessCollab where
  fetchPdf := fun _ => .ok ⟨true, "pdf-bytes"⟩
  pdfParse := fun _ => .ok "raw text"
  qaAnswer := fun _ _ => .ok "qa answer"

/-- A serverless stub whose PDF fetch throws with message "getaddrinfo ENOTFOUND". -/
def fetchFailServerless : ServerlessCollab where
  fetchPdf := fun _ => .error "getaddrinfo ENOTFOUND"
  pdfParse := fun _ => .ok "raw text"
  qaAnswer := fun _ _ => .ok "qa answer"

/-- A deterministic stub for the per-request-PDF `part_001` variant. -/
def stubPdfqa : PdfqaCollab where
  extractText := fun _ => .ok "raw text"
  qaAnswer := fun _ _ => .ok "qa answer"

theorem append_singleton_ne (l : List Turn) (t : Turn) : l ++ [t] ≠ l := by
  intro h
  have hlen := congrArg List.length h
  simp at hlen

/-- C9: for every request to the serverless chat handlers (`src/api/chat.js`
and `src/unnamed/part_002`) whose HTTP method is not POST, the handler
returns status 405 with an error body and makes no collaborator call (the
trace is empty, so no validation, PDF fetch, or chain invocation happens). -/
theorem C9_non_post_rejected (cs cp : ServerlessCollab) (method : String)
    (question pdfUrl : Option String) (h : method ≠ "POST") :
    apiChatHandler cs ⟨method, question, pdfUrl⟩ =
      (⟨405, .error "Method not allowed"⟩, []) ∧
    part002Handler cp ⟨method, question, pdfUrl⟩ =
      (⟨405, .error "Method not allowed"⟩, []) := by
  constructor <;> simp [apiChatHandler, part002Handler, h]

theorem C9_non_post_rejected_witness :
    ("GET" : String) ≠ "POST" ∧
    (apiChatHandler stubServerless ⟨"GET", some "hi", some "u.pdf"⟩ =
      (⟨405, .error "Method not allowed"⟩, []) ∧
     part002Handler stubServerless ⟨"GET", some "hi", some "u.pdf"⟩ =
      (⟨405, .error "Method not allowed"⟩, [])) :=
  ⟨by decide,
   C9_non_post_rejected stubServerless stubServerless "GET" (some "hi") (some "u.pdf")
     (by decide)⟩

/-- C7: the ingestion cleanup of `src/unnamed/part_000` does NOT remove
null characters. Its regex literal `/\\u0000/g` matches the six-character
text backslash-`u0000`, not U+0000: on a raw text containing an actual
null character the cleanup leaves it in place (first two conjuncts), while
it does strip the literal text backslash-`u0000` (third conjunct). This
contradicts the script's own comment ("remove null characters that cause
the database error") and the spec. -/
theorem C7_nullchar_not_stripped :
    cleanText "a\x00b" = "a\x00b" ∧
    (Char.ofNat 0) ∈ (cleanText "a\x00b").data ∧
    cleanText "a\\u0000b" = "ab" := by
  refine ⟨by decide, by decide, by decide⟩

/-- C4: when the question is non-empty, the scope is set, the retriever
returns zero chunks and the web search returns zero result items, both the
first `src/index.js` handler and the `part_001` variant-2 handler answer
status 200 with exactly the fixed no-answer message, leave the history
unchanged, and never invoke the language model (the trace holds only the
retriever and web-search calls). -/
theorem C4_no_docs_no_results (c : Collab) (hist : List Turn) (q : String)
    (u : Option String) (d : Option (List SearchItem))
    (hq : q ≠ "") (hu : hasScope u = true)
    (hr : c.getRelevantDocuments q = .ok [])
    (hd : c.searchData q = .ok d) (hitems : d.getD [] = []) :
    indexV1Handler c hist ⟨some q, u⟩ =
      (⟨200, .answer noAnswerDocsMsg⟩, hist, [.retrieverCall q, .webSearchCall q]) ∧
    part001V2Handler c hist ⟨some q, u⟩ =
      (⟨200, .answer noAnswerDocsMsg⟩, hist, [.retrieverCall q, .webSearchCall q]) := by
  have ht : truthy (some q) = true := (truthy_some_iff q).mpr hq
  constructor
  · simp [indexV1Handler, ht, hu, hr, hd, hitems, buildSearchContext]
  · simp [part001V2Handler, ht, hr, hd, hitems, buildSearchContext]

theorem C4_no_docs_no_results_witness :
    ("q1" : String) ≠ "" ∧ hasScope (some "doc.pdf") = true ∧
    emptyStubCollab.getRelevantDocuments "q1" = .ok [] ∧
    emptyStubCollab.searchData "q1" = .ok (some []) ∧
    ((some [] : Option (List SearchItem)).getD [] = []) ∧
    (indexV1Handler emptyStubCollab [] ⟨some "q1", some "doc.pdf"⟩ =
      (⟨200, .answer noAnswerDocsMsg⟩, [], [.retrieverCall "q1", .webSearchCall "q1"]) ∧
     part001V2Handler emptyStubCollab [] ⟨some "q1", some "doc.pdf"⟩ =
      (⟨200, .answer noAnswerDocsMsg⟩, [], [.retrieverCall "q1", .webSearchCall "q1"])) :=
  ⟨by decide, by decide, rfl, rfl, rfl,
   C4_no_docs_no_results emptyStubCollab [] "q1" (some "doc.pdf") (some [])
     (by decide) (by decide) rfl rfl rfl⟩

/-- C10: a web-search response whose body lacks the `items` field is
treated as zero results by all three fallback branches (`data.items || []`):
with the scope set and zero retrieved chunks, each handler answers 200 with
the fixed no-answer message, mutates nothing, and never invokes the
language model — no 500 arises. -/
theorem C10_missing_items_is_no_results (c : Collab) (hist : List Turn)
    (q : String) (u : Option String) (hq : q ≠ "") (hu : hasScope u = true)
    (hr : c.getRelevantDocuments q = .ok [])
    (hd : c.searchData q = .ok none) :
    indexV1Handler c hist ⟨some q, u⟩ =
      (⟨200, .answer noAnswerDocsMsg⟩, hist, [.retrieverCall q, .webSearchCall q]) ∧
    indexV2Handler c hist ⟨some q, u⟩ =
      (⟨200, .answer noAnswerDocsMsg⟩, hist, [.retrieverCall q, .webSearchCall q]) ∧
    part001V2Handler c hist ⟨some q, u⟩ =
      (⟨200, .answer noAnswerDocsMsg⟩, hist, [.retrieverCall q, .webSearchCall q]) := by
  have ht : truthy (some q) = true := (truthy_some_iff q).mpr hq
  refine ⟨?_, ?_, ?_⟩
  · simp [indexV1Handler, ht, hu, hr, hd, buildSearchContext]
  · simp [indexV2Handler, ht, hu, hr, hd, buildSearchContext]
  · simp [part001V2Handler, ht, hr, hd, buildSearchContext]

theorem C10_missing_items_is_no_results_witness :
    ("q1" : String) ≠ "" ∧ hasScope (some "doc.pdf") = true ∧
    noItemsStubCollab.getRelevantDocuments "q1" = .ok [] ∧
    noItemsStubCollab.searchData "q1" = .ok none ∧
    (indexV1Handler noItemsStubCollab [] ⟨some "q1", some "doc.pdf"⟩ =
      (⟨200, .answer noAnswerDocsMsg⟩, [], [.retrieverCall "q1", .webSearchCall "q1"]) ∧
     indexV2Handler noItemsStubCollab [] ⟨some "q1", some "doc.pdf"⟩ =
      (⟨200, .answer noAnswerDocsMsg⟩, [], [.retrieverCall "q1", .webSearchCall "q1"]) ∧
     part001V2Handler noItemsStubCollab [] ⟨some "q1", some "doc.pdf"⟩ =
      (⟨200, .answer noAnswerDocsMsg⟩, [], [.retrieverCall "q1", .webSearchCall "q1"])) :=
  ⟨by decide, by decide, rfl, rfl,
   C10_missing_items_is_no_results noItemsStubCollab [] "q1" (some "doc.pdf")
     (by decide) (by decide) rfl rfl⟩

/-- C1 (counterexample): the claim fails on the `part_001` variant-2
handler: on a request with a non-empty question and no `pdfUrl` at all,
its very first collaborator call is the vector-store retriever. -/
theorem C1_counterexample :
    (part001V2Handler stubCollab [] ⟨some "hi", none⟩).2.2.head? =
      some (CallEvent.retrieverCall "hi") := by
  decide

/-- C1 (amended): in the first `src/index.js` variant, a request with a
non-empty question and no scope never calls the retriever — its trace is
exactly the web-search call, followed by a language-model call exactly when
the search yields at least one result item; the `part_001` variant-2
handler, by contrast, always calls the retriever first. -/
theorem C1_general_path_no_retriever (c : Collab) (hist : List Turn)
    (q : String) (u : Option String) (hq : q ≠ "") (hu : hasScope u = false) :
    (indexV1Handler c hist ⟨some q, u⟩).2.2 =
      (if searchYieldsResults c q then [CallEvent.webSearchCall q, CallEvent.llmCall]
       else [CallEvent.webSearchCall q]) ∧
    (part001V2Handler c hist ⟨some q, u⟩).2.2.head? =
      some (CallEvent.retrieverCall q) := by
  have ht : truthy (some q) = true := (truthy_some_iff q).mpr hq
  constructor
  · cases hsd : c.searchData q with
    | error msg =>
        simp [indexV1Handler, ht, hu, hsd, searchYieldsResults]
    | ok d =>
        cases hd : d.getD [] with
        | nil =>
            simp [indexV1Handler, ht, hu, hsd, hd, searchYieldsResults,
              buildSearchContext]
        | cons it rest =>
            have hctx : ¬ buildSearchContext (it :: rest) = "" := by
              intro h
              exact absurd ((buildSearchContext_eq_empty_iff _).mp h) (by simp)
            cases hchat :
                c.chatInvoke (searchMessages (buildSearchContext (it :: rest)) q) with
            | error msg =>
                simp [indexV1Handler, ht, hu, hsd, hd, hctx, hchat, searchYieldsResults]
            | ok content =>
                simp [indexV1Handler, ht, hu, hsd, hd, hctx, hchat, searchYieldsResults]
  · unfold part001V2Handler
    simp only [ht, if_true]
    repeat' split
    all_goals simp_all

theorem C1_general_path_no_retriever_witness :
    ("hi" : String) ≠ "" ∧ hasScope (none : Option String) = false ∧
    ((indexV1Handler stubCollab [] ⟨some "hi", none⟩).2.2 =
      (if searchYieldsResults stubCollab "hi"
       then [CallEvent.webSearchCall "hi", CallEvent.llmCall]
       else [CallEvent.webSearchCall "hi"]) ∧
     (part001V2Handler stubCollab [] ⟨some "hi", none⟩).2.2.head? =
      some (CallEvent.retrieverCall "hi")) :=
  ⟨by decide, by decide,
   C1_general_path_no_retriever stubCollab [] "hi" none (by decide) (by decide)⟩

/-- C2 (counterexample): the claim fails on `src/api/chat.js`: a POST
request with a non-empty question but no `pdfUrl` is rejected with 400,
so `pdfUrl` is not optional there. -/
theorem C2_counterexample :
    (apiChatHandler stubServerless ⟨"POST", some "hi", none⟩).1.status = 400 := by
  decide

/-- C2 (amended): the first `src/index.js` handler returns 400 exactly when
the question is missing or empty, with `pdfUrl` optional; the serverless
handler `src/api/chat.js` and the first `part_001` variant return 400
exactly when the question or the `pdfUrl` is missing or empty. -/
theorem C2_validation_400 (c : Collab) (cs : ServerlessCollab) (cp : PdfqaCollab)
    (hist : List Turn) (question pdfUrl : Option String) :
    ((indexV1Handler c hist ⟨question, pdfUrl⟩).1.status = 400 ↔
      truthy question = false) ∧
    ((apiChatHandler cs ⟨"POST", question, pdfUrl⟩).1.status = 400 ↔
      (truthy question = false ∨ truthy pdfUrl = false)) ∧
    ((part001V1Handler cp ⟨question, pdfUrl⟩).1.status = 400 ↔
      (truthy question = false ∨ truthy pdfUrl = false)) := by
  refine ⟨?_, ?_, ?_⟩
  · simp only [indexV1Handler]
    repeat' split
    all_goals simp_all
  · simp only [apiChatHandler]
    repeat' split
    all_goals simp_all
  · simp only [part001V1Handler]
    repeat' split
    all_goals simp_all

theorem string_append_assoc (a b c : String) : a ++ b ++ c = a ++ (b ++ c) := by
  apply String.ext
  simp [String.data_append]

/-- C3 (counterexample): the claim fails on the `part_001` variant-2
handler: with the scope set in the request, the retriever returning zero
chunks and the web search returning one item, its 200 answer is exactly
the model content with no disclaimer — it does not start with either
fallback warning. -/
theorem C3_counterexample :
    (part001V2Handler stubCollab [] ⟨some "hi", some "doc.pdf"⟩).1 =
      ⟨200, .answer "The answer."⟩ ∧
    (indexV1Warning.data.isPrefixOf ("The answer.").data) = false ∧
    (indexV2Warning.data.isPrefixOf ("The answer.").data) = false := by
  refine ⟨by decide, by decide, by decide⟩

/-- C3 (amended): in both `src/index.js` variants, when the scope is set,
the retriever returns zero chunks and the web search returns at least one
item, the web search is invoked and the 200 answer starts with that
variant's fallback disclaimer; the `part_001` variant-2 handler instead
returns the model answer with no disclaimer (see the counterexample). -/
theorem C3_fallback_disclaimer_on_index_variants (c : Collab) (hist : List Turn)
    (q : String) (u : Option String) (d : Option (List SearchItem))
    (hq : q ≠ "") (hu : hasScope u = true)
    (hr : c.getRelevantDocuments q = .ok [])
    (hd : c.searchData q = .ok d) (hne : d.getD [] ≠ [])
    (hchat : ∀ m, ∃ s, c.chatInvoke m = .ok s)
    (hmodel : ∀ p, ∃ t, c.modelInvoke p = .ok t) :
    (CallEvent.webSearchCall q ∈ (indexV1Handler c hist ⟨some q, u⟩).2.2 ∧
     ∃ rest, (indexV1Handler c hist ⟨some q, u⟩).1 =
       ⟨200, .answer (indexV1Warning ++ rest)⟩) ∧
    (CallEvent.webSearchCall q ∈ (indexV2Handler c hist ⟨some q, u⟩).2.2 ∧
     ∃ rest, (indexV2Handler c hist ⟨some q, u⟩).1 =
       ⟨200, .answer (indexV2Warning ++ rest)⟩) := by
  have ht : truthy (some q) = true := (truthy_some_iff q).mpr hq
  have hctx : ¬ buildSearchContext (d.getD []) = "" := fun h =>
    hne ((buildSearchContext_eq_empty_iff _).mp h)
  obtain ⟨content, hc⟩ := hchat (searchMessages (buildSearchContext (d.getD [])) q)
  obtain ⟨content2, hm⟩ := hmodel (searchAnswerTemplate (buildSearchContext (d.getD [])) q)
  constructor
  · constructor
    · simp [indexV1Handler, ht, hu, hr, hd, hctx, hc]
    · refine ⟨"\n\n" ++ content, ?_⟩
      have hres : (indexV1Handler c hist ⟨some q, u⟩).1 =
          ⟨200, .answer (indexV1Warning ++ "\n\n" ++ content)⟩ := by
        simp [indexV1Handler, ht, hu, hr, hd, hctx, hc]
      rw [hres, string_append_assoc]
  · constructor
    · simp [indexV2Handler, ht, hu, hr, hd, hctx, hm]
    · refine ⟨"\n\n" ++ content2, ?_⟩
      have hres : (indexV2Handler c hist ⟨some q, u⟩).1 =
          ⟨200, .answer (indexV2Warning ++ "\n\n" ++ content2)⟩ := by
        simp [indexV2Handler, ht, hu, hr, hd, hctx, hm]
      rw [hres, string_append_assoc]

theorem C3_fallback_disclaimer_on_index_variants_witness :
    ("hi" : String) ≠ "" ∧ hasScope (some "doc.pdf") = true ∧
    stubCollab.getRelevantDocuments "hi" = .ok [] ∧
    stubCollab.searchData "hi" = .ok (some [⟨"T", "L", "S"⟩]) ∧
    ((some [(⟨"T", "L", "S"⟩ : SearchItem)]).getD [] ≠ []) ∧
    ((CallEvent.webSearchCall "hi" ∈
        (indexV1Handler stubCollab [] ⟨some "hi", some "doc.pdf"⟩).2.2 ∧
      ∃ rest, (indexV1Handler stubCollab [] ⟨some "hi", some "doc.pdf"⟩).1 =
        ⟨200, .answer (indexV1Warning ++ rest)⟩) ∧
     (CallEvent.webSearchCall "hi" ∈
        (indexV2Handler stubCollab [] ⟨some "hi", some "doc.pdf"⟩).2.2 ∧
      ∃ rest, (indexV2Handler stubCollab [] ⟨some "hi", some "doc.pdf"⟩).1 =
        ⟨200, .answer (indexV2Warning ++ rest)⟩)) :=
  ⟨by decide, by decide, rfl, rfl, by decide,
   C3_fallback_disclaimer_on_index_variants stubCollab [] "hi" (some "doc.pdf")
     (some [⟨"T", "L", "S"⟩]) (by decide) (by decide) rfl rfl (by decide)
     (fun m => ⟨"The answer.", rfl⟩) (fun p => ⟨"The answer.", rfl⟩)⟩

/-- C5 (counterexample): the claim fails on the `part_001` variant-2
handler: when the vector search throws an exception whose message is
"boom", the 500 response body carries that very message, not a generic
one. -/
theorem C5_counterexample :
    (part001V2Handler throwingStubCollab [] ⟨some "hi", some "doc.pdf"⟩).1 =
      ⟨500, .error "boom"⟩ := by
  decide

/-- C5 (amended): the first `src/index.js` handler catches every
collaborator exception and answers 500 with the generic body
"An error occurred." (first two conjuncts: every one of its 500 responses
is generic, and a retriever failure on the scoped path produces exactly
that response); the `part_001` variant-2 handler and `src/api/chat.js`
instead surface the exception's own (non-empty) message in the 500 body. -/
theorem C5_exception_to_500 (c : Collab) (cs : ServerlessCollab)
    (hist : List Turn) (req : ChatRequest) (q url msgA msgB : String)
    (u : Option String)
    (hq : q ≠ "") (hurl : url ≠ "") (hmsgA : msgA ≠ "") (hmsgB : msgB ≠ "")
    (hr : c.getRelevantDocuments q = .error msgA)
    (hfetch : cs.fetchPdf url = .error msgB) :
    ((indexV1Handler c hist req).1.status = 500 →
      (indexV1Handler c hist req).1.body = .error "An error occurred.") ∧
    (hasScope u = true →
      indexV1Handler c hist ⟨some q, u⟩ =
        (⟨500, .error "An error occurred."⟩, hist, [.retrieverCall q])) ∧
    (part001V2Handler c hist ⟨some q, u⟩).1 = ⟨500, .error msgA⟩ ∧
    (apiChatHandler cs ⟨"POST", some q, some url⟩).1 = ⟨500, .error msgB⟩ := by
  have ht : truthy (some q) = true := (truthy_some_iff q).mpr hq
  refine ⟨?_, ?_, ?_, ?_⟩
  · simp only [indexV1Handler]
    repeat' split
    all_goals simp_all
  · intro hu
    simp [indexV1Handler, ht, hu, hr]
  · simp [part001V2Handler, ht, hr, jsOr, hmsgA]
  · simp [apiChatHandler, truthy, hq, hurl, hfetch, jsOr, hmsgB]

theorem C5_exception_to_500_witness :
    ("q1" : String) ≠ "" ∧ ("u.pdf" : String) ≠ "" ∧
    ("boom" : String) ≠ "" ∧ ("getaddrinfo ENOTFOUND" : String) ≠ "" ∧
    throwingStubCollab.getRelevantDocuments "q1" = .error "boom" ∧
    fetchFailServerless.fetchPdf "u.pdf" = .error "getaddrinfo ENOTFOUND" ∧
    (((indexV1Handler throwingStubCollab [] ⟨some "q1", some "doc.pdf"⟩).1.status = 500 →
       (indexV1Handler throwingStubCollab [] ⟨some "q1", some "doc.pdf"⟩).1.body =
         .error "An error occurred.") ∧
     (hasScope (some "doc.pdf") = true →
       indexV1Handler throwingStubCollab [] ⟨some "q1", some "doc.pdf"⟩ =
         (⟨500, .error "An error occurred."⟩, [], [.retrieverCall "q1"])) ∧
     (part001V2Handler throwingStubCollab [] ⟨some "q1", some "doc.pdf"⟩).1 =
       ⟨500, .error "boom"⟩ ∧
     (apiChatHandler fetchFailServerless ⟨"POST", some "q1", some "u.pdf"⟩).1 =
       ⟨500, .error "getaddrinfo ENOTFOUND"⟩) :=
  ⟨by decide, by decide, by decide, by decide, rfl, rfl,
   C5_exception_to_500 throwingStubCollab fetchFailServerless []
     ⟨some "q1", some "doc.pdf"⟩ "q1" "u.pdf" "boom" "getaddrinfo ENOTFOUND"
     (some "doc.pdf") (by decide) (by decide) (by decide) (by decide) rfl rfl⟩

/-- C6 (counterexample): the claim fails on the `part_001` variant-2
handler (cited in the claim's sources): on a scopeless request — no
`pdfUrl` at all — with the retriever returning chunks and the chain
answering, it still appends the exchange to the process-wide history,
although the claim allows an append only when the scope is set. -/
theorem C6_counterexample :
    hasScope (none : Option String) = false ∧
    (part001V2Handler docsStubCollab [] ⟨some "q1", none⟩).2.1 =
      [⟨"q1", "doc answer"⟩] := by
  refine ⟨by decide, by decide⟩

/-- C6 (amended): the first `src/index.js` handler appends to the
process-wide conversation history exactly when its document path succeeds
— question non-empty, scope set, retriever returning at least one chunk
and the chain answering — while the `part_001` variant-2 handler appends
exactly when the retriever returns at least one chunk and the chain
answers, with no scope condition; in either case exactly the one exchange
is appended, and every other path leaves the history unchanged (the
history is the only process-wide state the handlers touch). -/
theorem C6_history_mutation (c : Collab) (hist : List Turn) (req : ChatRequest) :
    ((indexV1Handler c hist req).2.1 = hist ↔ docPathSucceeds c hist req = false) ∧
    (docPathSucceeds c hist req = true →
      ∃ a, c.chainInvoke (req.question.getD "") hist = .ok a ∧
        (indexV1Handler c hist req).2.1 = hist ++ [⟨req.question.getD "", a⟩]) ∧
    ((part001V2Handler c hist req).2.1 = hist ↔
      allDocsPathSucceeds c hist req = false) ∧
    (allDocsPathSucceeds c hist req = true →
      ∃ a, c.chainInvoke (req.question.getD "") hist = .ok a ∧
        (part001V2Handler c hist req).2.1 = hist ++ [⟨req.question.getD "", a⟩]) := by
  refine ⟨?_, ?_, ?_, ?_⟩
  · simp only [indexV1Handler, docPathSucceeds]
    repeat' split
    all_goals simp_all [append_singleton_ne]
  · simp only [indexV1Handler, docPathSucceeds]
    repeat' split
    all_goals simp_all
  · simp only [part001V2Handler, allDocsPathSucceeds]
    repeat' split
    all_goals simp_all [append_singleton_ne]
  · simp only [part001V2Handler, allDocsPathSucceeds]
    repeat' split
    all_goals simp_all

theorem C6_history_mutation_witness :
    (((indexV1Handler docsStubCollab [] ⟨some "q1", some "doc.pdf"⟩).2.1 = [] ↔
       docPathSucceeds docsStubCollab [] ⟨some "q1", some "doc.pdf"⟩ = false) ∧
     (docPathSucceeds docsStubCollab [] ⟨some "q1", some "doc.pdf"⟩ = true →
       ∃ a, docsStubCollab.chainInvoke ((some "q1").getD "") [] = .ok a ∧
         (indexV1Handler docsStubCollab [] ⟨some "q1", some "doc.pdf"⟩).2.1 =
           [] ++ [⟨(some "q1").getD "", a⟩]) ∧
     ((part001V2Handler docsStubCollab [] ⟨some "q1", some "doc.pdf"⟩).2.1 = [] ↔
       allDocsPathSucceeds docsStubCollab [] ⟨some "q1", some "doc.pdf"⟩ = false) ∧
     (allDocsPathSucceeds docsStubCollab [] ⟨some "q1", some "doc.pdf"⟩ = true →
       ∃ a, docsStubCollab.chainInvoke ((some "q1").getD "") [] = .ok a ∧
         (part001V2Handler docsStubCollab [] ⟨some "q1", some "doc.pdf"⟩).2.1 =
           [] ++ [⟨(some "q1").getD "", a⟩])) :=
  C6_history_mutation docsStubCollab [] ⟨some "q1", some "doc.pdf"⟩

/-- C8: with deterministic collaborators, two requests with the same
question and scope receive the same response — disregarding any difference
caused by history growth between the runs, phrased as the hypothesis that
the retrieval chain answers the same on the two histories. Both the first
`src/index.js` handler and the `part_001` variant-2 handler satisfy it. -/
theorem C8_deterministic_answers (c : Collab) (h1 h2 : List Turn) (q : String)
    (u : Option String) (hch : ∀ s, c.chainInvoke s h1 = c.chainInvoke s h2) :
    (indexV1Handler c h1 ⟨some q, u⟩).1 = (indexV1Handler c h2 ⟨some q, u⟩).1 ∧
    (part001V2Handler c h1 ⟨some q, u⟩).1 =
      (part001V2Handler c h2 ⟨some q, u⟩).1 := by
  constructor
  · simp only [indexV1Handler, hch]
    repeat' split
    all_goals simp_all
  · simp only [part001V2Handler, hch]
    repeat' split
    all_goals simp_all

theorem C8_deterministic_answers_witness :
    ((indexV1Handler stubCollab [] ⟨some "hi", none⟩).1 =
      (indexV1Handler stubCollab [⟨"x", "y"⟩] ⟨some "hi", none⟩).1 ∧
     (part001V2Handler stubCollab [] ⟨some "hi", none⟩).1 =
      (part001V2Handler stubCollab [⟨"x", "y"⟩] ⟨some "hi", none⟩).1) :=
  C8_deterministic_answers stubCollab [] [⟨"x", "y"⟩] "hi" none (fun _ => rfl)

end DeepWoods
